import Mathlib

/-!
Verification of the Reproduction Pipeline Engine
(repository `Reasearch-Litrature_Review`, package `research_reproducer`).

Shallow embedding of the Python sources under `src/research_reproducer/`:
`retry_utils.py`, `cache.py`, `executor.py`, `error_diagnosis.py`,
`repo_finder.py`, `env_setup.py`, `orchestrator.py`.  External effects
(child processes, the filesystem, package managers, the interactive
session, network collaborators) are modelled as explicit oracle inputs;
Python floats are modelled by exact rationals; wall-clock timestamps by
natural-number seconds.
-/

namespace Spec2Proof

namespace Retry

/-- Outcome of one invocation of an operation wrapped by
`retry_with_backoff.wrapper` (`retry_utils.py`, lines 37-61): either a
returned value, or a raised exception.  `matched` records whether the
exception is an instance of the decorator's `exceptions` tuple (the
`except exceptions as e` clause catches it only then); `tag` identifies
the particular exception object so that "the final failure" can be
spoken about. -/
inductive CallOutcome (α : Type) where
  | ok (a : α)
  | exc (matched : Bool) (tag : Nat)
  deriving DecidableEq

/-- Final observable result of a wrapped call: a returned value, a
propagated exception, or the `return None` fall-through after the loop
(reachable only when `max_attempts = 0`). -/
inductive RunResult (α : Type) where
  | value (a : α)
  | raised (matched : Bool) (tag : Nat)
  | fellThrough
  deriving DecidableEq

/-- The `while attempt <= max_attempts` loop of
`retry_with_backoff.wrapper` (`retry_utils.py`, lines 38-61).  `fuel`
is the number of loop iterations still allowed, i.e.
`max_attempts - attempt + 1`; the loop state is `(attempt, delay)` with
initial values `(1, base_delay)`.  Returns the list of delays passed to
`time.sleep`, the number of invocations of `func`, and the result.
On a caught exception before the final attempt the wrapper sleeps the
current `delay` and only then updates it to
`min(delay * exponential_base, max_delay)`. -/
def wrapperGo (op : Nat → CallOutcome α) (maxAttempts : Nat) (dmax b : ℚ) :
    Nat → Nat → ℚ → List ℚ × Nat × RunResult α
  | 0, _, _ => ([], 0, .fellThrough)
  | fuel + 1, attempt, delay =>
    match op attempt with
    | .ok a => ([], 1, .value a)
    | .exc matched tag =>
      if matched = false then ([], 1, .raised matched tag)
      else if attempt = maxAttempts then ([], 1, .raised matched tag)
      else
        let rest := wrapperGo op maxAttempts dmax b fuel (attempt + 1)
          (min (delay * b) dmax)
        (delay :: rest.1, rest.2.1 + 1, rest.2.2)

/-- A full run of `retry_with_backoff(max_attempts, base_delay,
max_delay, exponential_base, exceptions)` applied to `op`. -/
def wrapperRun (op : Nat → CallOutcome α) (maxAttempts : Nat)
    (d0 dmax b : ℚ) : List ℚ × Nat × RunResult α :=
  wrapperGo op maxAttempts dmax b maxAttempts 1 d0

/-- An exception as classified by `SmartRetry.execute`
(`retry_utils.py`, lines 136-167): `nonRetryableInstance` models
`isinstance(e, NonRetryableError)`, `retryablePolicy` models
`is_retryable_error(e)`. -/
structure SmartExc where
  nonRetryableInstance : Bool
  retryablePolicy : Bool
  tag : Nat
  deriving DecidableEq

/-- Outcome of one invocation of the operation given to
`SmartRetry.execute`. -/
inductive SmartCall (α : Type) where
  | ok (a : α)
  | exc (e : SmartExc)
  deriving DecidableEq

/-- Final observable result of `SmartRetry.execute`: a value, a raised
exception, or the degenerate `raise last_exception` with
`last_exception = None` after a loop that never ran
(only when `max_attempts = 0`). -/
inductive SmartResult (α : Type) where
  | value (a : α)
  | raised (e : SmartExc)
  | raisedNone
  deriving DecidableEq

/-- The `while attempt <= self.max_attempts` loop of
`SmartRetry.execute` (`retry_utils.py`, lines 140-167).  On an
exception: a `NonRetryableError` instance is re-raised at once; then
`not is_retryable_error(e) or attempt == max_attempts` re-raises;
otherwise the manager sleeps `delay` and continues with
`delay = min(delay * 2, max_delay)` (the multiplier 2 is hard-coded in
the source).  Returns slept delays, invocation count and result. -/
def smartGo (op : Nat → SmartCall α) (maxAttempts : Nat) (dmax : ℚ) :
    Nat → Nat → ℚ → List ℚ × Nat × SmartResult α
  | 0, _, _ => ([], 0, .raisedNone)
  | fuel + 1, attempt, delay =>
    match op attempt with
    | .ok a => ([], 1, .value a)
    | .exc e =>
      if e.nonRetryableInstance = true then ([], 1, .raised e)
      else if e.retryablePolicy = false ∨ attempt = maxAttempts then
        ([], 1, .raised e)
      else
        let rest := smartGo op maxAttempts dmax fuel (attempt + 1)
          (min (delay * 2) dmax)
        (delay :: rest.1, rest.2.1 + 1, rest.2.2)

/-- A full run of `SmartRetry(max_attempts, base_delay,
max_delay).execute(op)`. -/
def smartRun (op : Nat → SmartCall α) (maxAttempts : Nat)
    (d0 dmax : ℚ) : List ℚ × Nat × SmartResult α :=
  smartGo op maxAttempts dmax maxAttempts 1 d0

/-- Closed form for the loop's delay variable: the delay slept before
retry `k + 1` when every attempt fails retryably.  `sleptDelay d0 dmax b 0`
is the first slept delay, which the source takes to be `base_delay`
itself, before any `min` is applied. -/
def sleptDelay (d0 dmax b : ℚ) : Nat → ℚ
  | 0 => d0
  | k + 1 => min (sleptDelay d0 dmax b k * b) dmax

/-- The list of the first `n` delays the wrapper sleeps, starting from
delay `d`. -/
def delayChain (dmax b : ℚ) (d : ℚ) : Nat → List ℚ
  | 0 => []
  | n + 1 => d :: delayChain dmax b (min (d * b) dmax) n

theorem sleptDelay_shift (d0 dmax b : ℚ) (k : Nat) :
    sleptDelay d0 dmax b (k + 1) =
      sleptDelay (min (d0 * b) dmax) dmax b k := by
  induction k with
  | zero => rfl
  | succ k ih =>
    show min (sleptDelay d0 dmax b (k + 1) * b) dmax = _
    rw [ih]
    rfl

theorem delayChain_eq_map (dmax b : ℚ) :
    ∀ (n : Nat) (d : ℚ),
      delayChain dmax b d n = (List.range n).map (sleptDelay d dmax b) := by
  intro n
  induction n with
  | zero => intro d; rfl
  | succ n ih =>
    intro d
    rw [List.range_succ_eq_map]
    show d :: delayChain dmax b (min (d * b) dmax) n = _
    rw [ih]
    simp only [List.map_cons, List.map_map]
    refine congrArg (fun l => _ :: l) ?_
    refine List.map_congr_left ?_
    intro i _
    show sleptDelay (min (d * b) dmax) dmax b i = sleptDelay d dmax b (i + 1)
    rw [sleptDelay_shift]

theorem sleptDelay_closed_form (d0 dmax b : ℚ)
    (hd0 : 0 < d0) (hb : 1 < b) (hle : d0 ≤ dmax) :
    ∀ k, sleptDelay d0 dmax b k = min (d0 * b ^ k) dmax := by
  intro k
  induction k with
  | zero =>
    show d0 = min (d0 * b ^ 0) dmax
    rw [pow_zero, mul_one, min_eq_left hle]
  | succ k ih =>
    show min (sleptDelay d0 dmax b k * b) dmax = _
    rw [ih]
    have hb0 : (0 : ℚ) < b := lt_trans one_pos hb
    have hdmax0 : (0 : ℚ) < dmax := lt_of_lt_of_le hd0 hle
    rcases le_or_lt (d0 * b ^ k) dmax with h | h
    · rw [min_eq_left h, pow_succ, mul_assoc]
    · have h1 : min (d0 * b ^ k) dmax = dmax := min_eq_right h.le
      rw [h1]
      have h2 : dmax ≤ dmax * b := by
        nlinarith
      rw [min_eq_right h2]
      have h3 : dmax ≤ d0 * b ^ (k + 1) := by
        have : d0 * b ^ k ≤ d0 * b ^ (k + 1) := by
          rw [pow_succ, ← mul_assoc]
          nlinarith [pow_pos hb0 k]
        linarith
      rw [min_eq_right h3]

theorem sleptDelay_monotone (d0 dmax b : ℚ)
    (hd0 : 0 < d0) (hb : 1 < b) (hle : d0 ≤ dmax) (k : Nat) :
    sleptDelay d0 dmax b k ≤ sleptDelay d0 dmax b (k + 1) := by
  rw [sleptDelay_closed_form d0 dmax b hd0 hb hle,
    sleptDelay_closed_form d0 dmax b hd0 hb hle]
  refine min_le_min ?_ le_rfl
  have hb0 : (0 : ℚ) < b := lt_trans one_pos hb
  have hp : (0 : ℚ) < d0 * b ^ k := mul_pos hd0 (pow_pos hb0 k)
  have h1 : d0 * b ^ k * 1 ≤ d0 * b ^ k * b :=
    mul_le_mul_of_nonneg_left hb.le hp.le
  calc d0 * b ^ k = d0 * b ^ k * 1 := by ring
    _ ≤ d0 * b ^ k * b := h1
    _ = d0 * b ^ (k + 1) := by ring

/-- When every attempt raises an exception matched by the `exceptions`
tuple, the wrapper loop performs every remaining attempt, sleeps the
chained delays, and re-raises the exception of the final attempt.
`n` is the number of retries still available (`maxAttempts - attempt`). -/
theorem wrapperGo_allFail (tags : Nat → Nat) (maxAttempts : Nat)
    (dmax b : ℚ) :
    ∀ (n attempt : Nat) (d : ℚ), attempt + n = maxAttempts →
      wrapperGo (α := Unit) (fun j => .exc true (tags j)) maxAttempts dmax b
          (n + 1) attempt d =
        (delayChain dmax b d n, n + 1, .raised true (tags maxAttempts)) := by
  intro n
  induction n with
  | zero =>
    intro attempt d hsum
    have h : attempt = maxAttempts := by omega
    subst h
    simp [wrapperGo, delayChain]
  | succ n ih =>
    intro attempt d hsum
    have hend : ¬ attempt = maxAttempts := by omega
    have hrec := ih (attempt + 1) (min (d * b) dmax) (by omega)
    conv_lhs => rw [wrapperGo]
    rw [hrec]
    simp [delayChain, hend]

/-- When every attempt raises a retryable, non-`NonRetryableError`
exception, `SmartRetry.execute` performs every remaining attempt and
re-raises the exception of the final attempt. -/
theorem smartGo_allFail (es : Nat → SmartExc) (maxAttempts : Nat)
    (dmax : ℚ)
    (hes : ∀ j, (es j).nonRetryableInstance = false ∧
      (es j).retryablePolicy = true) :
    ∀ (n attempt : Nat) (d : ℚ), attempt + n = maxAttempts →
      smartGo (α := Unit) (fun j => .exc (es j)) maxAttempts dmax
          (n + 1) attempt d =
        (delayChain dmax 2 d n, n + 1, .raised (es maxAttempts)) := by
  intro n
  induction n with
  | zero =>
    intro attempt d hsum
    have h : attempt = maxAttempts := by omega
    subst h
    simp [smartGo, delayChain, hes]
  | succ n ih =>
    intro attempt d hsum
    have hend : ¬ attempt = maxAttempts := by omega
    have hrec := ih (attempt + 1) (min (d * 2) dmax) (by omega)
    conv_lhs => rw [smartGo]
    rw [hrec]
    simp [delayChain, hend, hes]

end Retry

/-- C1 (amended): for attempts `1 ≤ k < N`, base delay `d₀ > 0`,
multiplier `b > 1` and maximum delay `dmax` with `d₀ ≤ dmax`, the delay
`retry_with_backoff.wrapper` sleeps before retry `k` (when every attempt
raises a matched exception) equals `min(d₀·b^(k-1), dmax)`, and the
sequence of slept delays is monotonically non-decreasing.  The
hypothesis `d₀ ≤ dmax` is necessary: the source sleeps the raw
`base_delay` before the first retry, applying `min(·, max_delay)` only
from the second retry on. -/
theorem c1_backoff_delay (tags : Nat → Nat) (N k : Nat) (d0 dmax b : ℚ)
    (hk1 : 1 ≤ k) (hkN : k < N) (hd0 : 0 < d0) (hb : 1 < b)
    (hle : d0 ≤ dmax) :
    (Retry.wrapperRun (α := Unit) (fun j => .exc true (tags j))
          N d0 dmax b).1.get? (k - 1) =
        some (min (d0 * b ^ (k - 1)) dmax) ∧
      List.Chain' (· ≤ ·)
        (Retry.wrapperRun (α := Unit) (fun j => .exc true (tags j))
          N d0 dmax b).1 := by
  obtain ⟨m, rfl⟩ : ∃ m, N = m + 1 := ⟨N - 1, by omega⟩
  have hrun := Retry.wrapperGo_allFail tags (m + 1) dmax b m 1 d0 (by omega)
  constructor
  · simp only [Retry.wrapperRun]
    rw [hrun]
    simp only [Retry.delayChain_eq_map]
    rw [List.get?_map, List.get?_range (by omega : k - 1 < m)]
    simp only [Option.map_some']
    rw [Retry.sleptDelay_closed_form d0 dmax b hd0 hb hle]
  · simp only [Retry.wrapperRun]
    rw [hrun]
    simp only [Retry.delayChain_eq_map]
    rw [List.chain'_map]
    cases m with
    | zero => simp
    | succ m =>
      rw [List.chain'_range_succ]
      intro i _
      exact Retry.sleptDelay_monotone d0 dmax b hd0 hb hle i

/-- Witness for C1 at `N = 3`, `k = 1`, `d₀ = 1`, `dmax = 60`,
`b = 2`. -/
theorem c1_backoff_delay_witness :
    (Retry.wrapperRun (α := Unit) (fun _ => .exc true 0)
          3 1 60 2).1.get? (1 - 1) =
        some (min ((1 : ℚ) * 2 ^ (1 - 1)) 60) ∧
      List.Chain' (· ≤ ·)
        (Retry.wrapperRun (α := Unit) (fun _ => .exc true 0) 3 1 60 2).1 :=
  c1_backoff_delay (fun _ => 0) 3 1 1 60 2 (le_refl 1) (by omega)
    (by norm_num) (by norm_num) (by norm_num)

/-- Counterexample to C1 as stated: with `d₀ = 2 > dmax = 1`, `b = 2`,
`N = 3` and every attempt failing retryably, the wrapper sleeps `2`
before retry 1, but `min(d₀·b⁰, dmax) = 1`; the slept sequence
`[2, 1]` is not monotonically non-decreasing. -/
theorem c1_counterexample :
    (Retry.wrapperRun (α := Unit) (fun _ => .exc true 0) 3 2 1 2).1 =
        [2, 1] ∧
      min ((2 : ℚ) * 2 ^ (1 - 1)) 1 = 1 ∧ (2 : ℚ) ≠ 1 ∧
      ¬ List.Chain' (· ≤ ·) [(2 : ℚ), 1] := by
  refine ⟨?_, by norm_num, by norm_num, ?_⟩
  · simp only [Retry.wrapperRun]
    norm_num [Retry.wrapperGo]
  · simp only [List.chain'_cons, List.chain'_singleton, and_true]
    norm_num

/-- C4: a retrier with `N ≥ 1` attempts applied to an operation that
raises a retryable failure on every invocation invokes it exactly `N`
times and re-raises the final failure; applied to an operation raising
a non-retryable failure it invokes it exactly once and propagates that
failure; with `N = 1` it performs exactly one invocation and no retry
sleep.  Stated both for `SmartRetry.execute` and for
`retry_with_backoff.wrapper` (where "retryable" means matched by the
`exceptions` tuple). -/
theorem c4_retry_invocation_counts (α : Type) (N : Nat) (d0 dmax b : ℚ)
    (hN : 1 ≤ N) :
    (∀ es : Nat → Retry.SmartExc,
        (∀ j, (es j).nonRetryableInstance = false ∧
          (es j).retryablePolicy = true) →
        (Retry.smartRun (α := Unit) (fun j => .exc (es j)) N d0 dmax).2 =
          (N, .raised (es N))) ∧
    (∀ (op : Nat → Retry.SmartCall α) (e : Retry.SmartExc),
        op 1 = .exc e →
        e.nonRetryableInstance = true ∨ e.retryablePolicy = false →
        (Retry.smartRun op N d0 dmax).2 = (1, .raised e)) ∧
    (∀ op : Nat → Retry.SmartCall α,
        (Retry.smartRun op 1 d0 dmax).1 = [] ∧
          (Retry.smartRun op 1 d0 dmax).2.1 = 1) ∧
    (∀ tags : Nat → Nat,
        (Retry.wrapperRun (α := Unit) (fun j => .exc true (tags j))
            N d0 dmax b).2 =
          (N, .raised true (tags N))) ∧
    (∀ (op : Nat → Retry.CallOutcome α) (t : Nat),
        op 1 = .exc false t →
        (Retry.wrapperRun op N d0 dmax b).2 = (1, .raised false t)) := by
  obtain ⟨m, rfl⟩ : ∃ m, N = m + 1 := ⟨N - 1, by omega⟩
  refine ⟨?_, ?_, ?_, ?_, ?_⟩
  · intro es hes
    have h := Retry.smartGo_allFail es (m + 1) dmax hes m 1 d0 (by omega)
    simp only [Retry.smartRun]
    rw [h]
  · intro op e hop1 hcls
    rcases hcls with hcls | hcls
    · simp [Retry.smartRun, Retry.smartGo, hop1, hcls]
    · rcases hnr : e.nonRetryableInstance with _ | _ <;>
        simp [Retry.smartRun, Retry.smartGo, hop1, hcls, hnr]
  · intro op
    rcases hop : op 1 with a | e
    · simp [Retry.smartRun, Retry.smartGo, hop]
    · rcases hnr : e.nonRetryableInstance with _ | _ <;>
        simp [Retry.smartRun, Retry.smartGo, hop, hnr]
  · intro tags
    have h := Retry.wrapperGo_allFail tags (m + 1) dmax b m 1 d0 (by omega)
    simp only [Retry.wrapperRun]
    rw [h]
  · intro op t hop1
    simp [Retry.wrapperRun, Retry.wrapperGo, hop1]

/-- Witness for C4 at `N = 3`, exercising the always-retryable branch
and the `N = 1` branch at concrete operations. -/
theorem c4_retry_invocation_counts_witness :
    (Retry.smartRun (α := Unit)
          (fun j => .exc ⟨false, true, j⟩) 3 1 60).2 =
        (3, .raised ⟨false, true, 3⟩) ∧
      (Retry.smartRun (α := Unit) (fun _ => .ok ()) 1 1 60).2.1 = 1 :=
  ⟨(c4_retry_invocation_counts Unit 3 1 60 2 (by norm_num)).1
      (fun j => ⟨false, true, j⟩) (fun _ => ⟨rfl, rfl⟩),
    ((c4_retry_invocation_counts Unit 3 1 60 2 (by norm_num)).2.2.1
      (fun _ => .ok ())).2⟩

namespace Cache

/-- The three cache partitions of `ReproducerCache` (`cache.py`): the
`papers`, `repositories` and `analysis` subdirectories created in
`__init__`. -/
inductive CacheKind where
  | papers
  | repositories
  | analysis
  deriving DecidableEq

/-- The per-kind maximum age in days hard-coded at the `get_*` call
sites of `cache.py`: paper metadata 30 (`get_paper_metadata`, line 69),
repository info 7 (`get_repository_info`, line 111), analysis 3
(`get_analysis`, line 147). -/
def maxAgeDays : CacheKind → Nat
  | .papers => 30
  | .repositories => 7
  | .analysis => 3

/-- One cache file's JSON content, as written by the `set_*` methods:
the opaque JSON-serializable payload and the `cached_at` timestamp
(modelled in whole seconds since an arbitrary epoch). -/
structure CacheEntry (α : Type) where
  payload : α
  cachedAt : Nat

/-- The cache directory tree: for each kind, a map from cache-file stem
(the hex digest `_get_cache_key` derives from the identifier) to the
stored entry. -/
def CacheState (α : Type) := CacheKind → String → Option (CacheEntry α)

/-- A cache directory with no entries. -/
def emptyCache (α : Type) : CacheState α := fun _ _ => none

/-- `_is_cache_valid` (`cache.py`, lines 38-54): the cache file exists
and `datetime.now() - cached_time < timedelta(days=max_age_days)`,
expressed in seconds. -/
def isCacheValid (now maxAge : Nat) : Option (CacheEntry α) → Bool
  | none => false
  | some e => decide (now - e.cachedAt < maxAge * 86400)

/-- `set_paper_metadata` / `set_repository_info` / `set_analysis`
(`cache.py`, lines 80-104, 122-140, 158-176): overwrite the file named
by the digest of the identifier in the kind's directory with the
payload and `cached_at = now`.  `digest` models `_get_cache_key`
(an md5 hex digest of the identifier). -/
def cacheSet (digest : String → String) (now : Nat) (st : CacheState α)
    (kind : CacheKind) (ident : String) (p : α) : CacheState α :=
  fun k file =>
    if k = kind ∧ file = digest ident then some ⟨p, now⟩ else st k file

/-- `get_paper_metadata` / `get_repository_info` / `get_analysis`
(`cache.py`, lines 56-78, 106-120, 142-156): return the stored payload
when `_is_cache_valid` holds for the kind's max age, else `None`. -/
def cacheGet (digest : String → String) (now : Nat) (st : CacheState α)
    (kind : CacheKind) (ident : String) : Option α :=
  if isCacheValid now (maxAgeDays kind) (st kind (digest ident)) then
    (st kind (digest ident)).map (fun e => e.payload)
  else none

/-- A cache write operation, for speaking about histories of `set_*`
calls. -/
structure CacheOp (α : Type) where
  kind : CacheKind
  ident : String
  payload : α
  time : Nat

/-- Apply a history of `set_*` calls in order, oldest first. -/
def applyOps (digest : String → String) (ops : List (CacheOp α))
    (st : CacheState α) : CacheState α :=
  ops.foldl (fun s op => cacheSet digest op.time s op.kind op.ident op.payload) st

theorem applyOps_none (digest : String → String)
    (hinj : Function.Injective digest) (kind : CacheKind) (ident : String)
    (ops : List (CacheOp α))
    (hops : ∀ op ∈ ops, op.kind ≠ kind ∨ op.ident ≠ ident) :
    ∀ st : CacheState α, st kind (digest ident) = none →
      applyOps digest ops st kind (digest ident) = none := by
  induction ops with
  | nil => intro st hst; exact hst
  | cons op ops ih =>
    intro st hst
    refine ih (fun o ho => hops o (List.mem_cons_of_mem op ho)) _ ?_
    show (if kind = op.kind ∧ digest ident = digest op.ident then _
      else st kind (digest ident)) = none
    rcases hops op (List.mem_cons_self op ops) with h | h
    · rw [if_neg (by intro hc; exact h hc.1.symm)]
      exact hst
    · rw [if_neg (by intro hc; exact h (hinj hc.2).symm)]
      exact hst

end Cache

/-- C3: for every cache kind and payload, a `set` followed immediately
by a `get` returns the payload unchanged; a `get` on an identifier that
was never set (in any history of writes, given that the digest is
collision-free as the spec assumes of md5) returns `None`; a `get` on
an entry whose stored timestamp is older than the kind's max age
returns `None`; and the max ages are 30, 7 and 3 days for paper
metadata, repository info and analysis respectively. -/
theorem c3_cache_roundtrip_expiry (α : Type) (digest : String → String)
    (hinj : Function.Injective digest) :
    (∀ (now : Nat) (st : Cache.CacheState α) (kind : Cache.CacheKind)
        (ident : String) (p : α),
        Cache.cacheGet digest now
          (Cache.cacheSet digest now st kind ident p) kind ident = some p) ∧
    (∀ (ops : List (Cache.CacheOp α)) (kind : Cache.CacheKind)
        (ident : String) (now : Nat),
        (∀ op ∈ ops, op.kind ≠ kind ∨ op.ident ≠ ident) →
        Cache.cacheGet digest now
          (Cache.applyOps digest ops (Cache.emptyCache α)) kind ident = none) ∧
    (∀ (now tset : Nat) (st : Cache.CacheState α) (kind : Cache.CacheKind)
        (ident : String) (p : α),
        Cache.maxAgeDays kind * 86400 < now - tset →
        Cache.cacheGet digest now
          (Cache.cacheSet digest tset st kind ident p) kind ident = none) ∧
    Cache.maxAgeDays .papers = 30 ∧ Cache.maxAgeDays .repositories = 7 ∧
      Cache.maxAgeDays .analysis = 3 := by
  refine ⟨?_, ?_, ?_, rfl, rfl, rfl⟩
  · intro now st kind ident p
    have hset : Cache.cacheSet digest now st kind ident p kind (digest ident) =
        some ⟨p, now⟩ := by
      simp [Cache.cacheSet]
    rw [Cache.cacheGet, hset]
    have hval : Cache.isCacheValid now (Cache.maxAgeDays kind)
        (some (⟨p, now⟩ : Cache.CacheEntry α)) = true := by
      simp only [Cache.isCacheValid, Nat.sub_self, decide_eq_true_eq]
      cases kind <;> norm_num [Cache.maxAgeDays]
    rw [if_pos hval]
    rfl
  · intro ops kind ident now hops
    have h := Cache.applyOps_none digest hinj kind ident ops hops
      (Cache.emptyCache α) rfl
    rw [Cache.cacheGet, h]
    rfl
  · intro now tset st kind ident p hold
    have hset : Cache.cacheSet digest tset st kind ident p kind (digest ident) =
        some ⟨p, tset⟩ := by
      simp [Cache.cacheSet]
    rw [Cache.cacheGet, hset]
    have hval : Cache.isCacheValid now (Cache.maxAgeDays kind)
        (some (⟨p, tset⟩ : Cache.CacheEntry α)) = false := by
      simp only [Cache.isCacheValid, decide_eq_false_iff_not, not_lt]
      omega
    rw [hval]
    rfl

/-- Witness for C3 with the identity digest: a round trip at one
timestamp and an expired read 30 days plus one second later. -/
theorem c3_cache_roundtrip_expiry_witness :
    Cache.cacheGet id 100
        (Cache.cacheSet id 100 (Cache.emptyCache String)
          .papers "2301.00001" "meta") .papers "2301.00001" = some "meta" ∧
      Cache.cacheGet id (5 + 30 * 86400 + 1)
        (Cache.cacheSet id 5 (Cache.emptyCache String)
          .papers "2301.00001" "meta") .papers "2301.00001" = none :=
  ⟨(c3_cache_roundtrip_expiry String id (fun _ _ h => h)).1 100
      (Cache.emptyCache String) .papers "2301.00001" "meta",
    (c3_cache_roundtrip_expiry String id (fun _ _ h => h)).2.2.1
      (5 + 30 * 86400 + 1) 5 (Cache.emptyCache String) .papers "2301.00001"
      "meta" (by norm_num [Cache.maxAgeDays])⟩

namespace Executor

/-- `pat in s` for Python strings: `pat` occurs as a contiguous
substring of `s` (the empty pattern always occurs). -/
def containsSub (pat : List Char) : List Char → Bool
  | [] => pat.isEmpty
  | c :: rest => pat.isPrefixOf (c :: rest) || containsSub pat rest

/-- `pat in s` on `String`. -/
def strContains (s pat : String) : Bool := containsSub pat.data s.data

/-- Deduplication keeping the first occurrence of each element.  The
source deduplicates with `list(set(...))`, whose order CPython leaves
unspecified; the claims never depend on the order, only on membership. -/
def dedupFirst {χ : Type} [DecidableEq χ] : List χ → List χ
  | [] => []
  | a :: l => a :: (dedupFirst l).filter (fun x => x ≠ a)

/-- `text.split('\n')` on character lists: `[[]]` on the empty text, a
trailing empty piece after a trailing newline. -/
def splitNl : List Char → List (List Char)
  | [] => [[]]
  | c :: cs =>
    let r := splitNl cs
    if c = '\n' then [] :: r
    else
      match r with
      | h :: t => (c :: h) :: t
      | [] => [[c]]

/-- `stderr.split('\n')` on `String`. -/
def splitLines (s : String) : List String := (splitNl s.data).map String.mk

/-- Python `line.strip()`: drop leading and trailing whitespace. -/
def pyStrip (s : String) : String :=
  String.mk
    (((s.data.dropWhile Char.isWhitespace).reverse.dropWhile
      Char.isWhitespace).reverse)

/-- The error markers of `CodeExecutor._analyze_errors`
(`executor.py`, lines 297-309). -/
def errorPatterns : List String :=
  ["Error:", "ERROR:", "Exception:", "Traceback", "FAILED",
    "ImportError", "ModuleNotFoundError", "FileNotFoundError",
    "RuntimeError", "ValueError", "TypeError"]

/-- `CodeExecutor._analyze_errors` (`executor.py`, lines 287-317):
split `stderr` on newlines, keep every line containing one of the
error markers, strip it, deduplicate. -/
def analyzeErrors (stderr : String) : List String :=
  if stderr = "" then []
  else
    dedupFirst (((splitLines stderr).filter
      (fun line => errorPatterns.any (fun p => strContains line p))).map
        pyStrip)

/-- `CodeExecutor._analyze_warnings` (`executor.py`, lines 319-332). -/
def analyzeWarnings (stderr : String) : List String :=
  if stderr = "" then []
  else
    dedupFirst (((splitLines stderr).filter
      (fun line => strContains line "Warning:" ||
        strContains line "WARNING:")).map pyStrip)

/-- Externally observable behaviour of the child process spawned by
`CodeExecutor.execute` (`executor.py`, lines 109-177): whether
`subprocess.Popen` itself succeeds (`spawnOk`; `spawnError` is the
exception text otherwise), whether the process exits before the
timeout deadline (`finishes`; always the case when no timeout is
given, since `wait(timeout=None)` blocks until exit), its exit code
when it exits on its own, the `returncode` observed after
`kill(); communicate()` (`killReturncode`, a negative signal number on
POSIX), the full stdout/stderr text produced when the process runs to
completion, and the text captured before the kill when it is timed
out. -/
structure ProcBehavior where
  spawnOk : Bool
  spawnError : String
  finishes : Bool
  exitCode : Int
  killReturncode : Int
  fullStdout : String
  fullStderr : String
  capturedStdout : String
  capturedStderr : String

/-- The fields of `ExecutionResult` (`executor.py`, lines 23-51) that
the claims are about.  `exitCode = none` models Python `None`. -/
structure ExecutionResult where
  success : Bool
  exitCode : Option Int
  stdout : String
  stderr : String
  errors : List String
  warnings : List String
  timedOut : Bool
  deriving DecidableEq

/-- `CodeExecutor.execute` (`executor.py`, lines 69-219).  Branches:
with `capture_output and stream_output`, two reader threads drain the
pipes and on `TimeoutExpired` the process is killed, `timed_out` is
set, and the captured lines are NOT joined into `result.stdout` /
`result.stderr` (the assignments at lines 150-151 are skipped), with
`process.returncode` still `None` since the killed child is never
reaped on that path; otherwise `communicate()` is used and on timeout
the post-kill `communicate()` captures the pending output and reaps
the kill return code.  Afterwards (lines 176-177)
`success = (exit_code == 0) and not timed_out`, and finally
`_analyze_errors` / `_analyze_warnings` of `stderr` are appended. -/
def execute (b : ProcBehavior) (timeout : Option Nat)
    (captureOutput streamOutput : Bool) : ExecutionResult :=
  let r0 : ExecutionResult :=
    ⟨false, none, "", "", [], [], false⟩
  let r1 :=
    if b.spawnOk then
      let r2 :=
        if captureOutput && streamOutput then
          match timeout, b.finishes with
          | some t, false =>
            { r0 with
              timedOut := true
              errors :=
                ["Execution timed out after " ++ toString t ++ " seconds"] }
          | _, _ =>
            { r0 with
              stdout := b.fullStdout
              stderr := b.fullStderr }
        else
          match timeout, b.finishes with
          | some t, false =>
            { r0 with
              timedOut := true
              errors :=
                ["Execution timed out after " ++ toString t ++ " seconds"]
              stdout := if captureOutput then b.capturedStdout else ""
              stderr := if captureOutput then b.capturedStderr else "" }
          | _, _ =>
            { r0 with
              stdout := if captureOutput then b.fullStdout else ""
              stderr := if captureOutput then b.fullStderr else "" }
      let ec : Option Int :=
        if r2.timedOut && (captureOutput && streamOutput) then none
        else if r2.timedOut then some b.killReturncode
        else some b.exitCode
      { r2 with
        exitCode := ec
        success := decide (ec = some 0) && !r2.timedOut }
    else
      { r0 with errors := ["Execution failed: " ++ b.spawnError] }
  { r1 with
    errors := r1.errors ++ analyzeErrors r1.stderr
    warnings := r1.warnings ++ analyzeWarnings r1.stderr }

end Executor

/-- C2: for every execution, `success = (exitCode = 0) ∧ ¬timedOut`;
in particular a command that exits before the timeout has its exact
exit code recorded and succeeds exactly when that code is 0. -/
theorem c2_executor_success_iff (b : Executor.ProcBehavior)
    (timeout : Option Nat) (captureOutput streamOutput : Bool) :
    ((Executor.execute b timeout captureOutput streamOutput).success = true ↔
      (Executor.execute b timeout captureOutput streamOutput).exitCode =
          some 0 ∧
        (Executor.execute b timeout captureOutput streamOutput).timedOut =
          false) ∧
    (b.spawnOk = true → b.finishes = true →
      (Executor.execute b timeout captureOutput streamOutput).exitCode =
          some b.exitCode ∧
        ((Executor.execute b timeout captureOutput streamOutput).success =
            true ↔ b.exitCode = 0)) := by
  constructor
  · rcases hs : b.spawnOk <;> rcases hc : captureOutput <;>
      rcases ho : streamOutput <;> rcases hf : b.finishes <;>
      rcases ht : timeout with _ | t <;>
      simp [Executor.execute, hs, hc, ho, hf, ht]
  · intro hs hf
    rcases hc : captureOutput <;> rcases ho : streamOutput <;>
      rcases ht : timeout with _ | t <;>
      simp [Executor.execute, hs, hc, ho, hf, ht]

/-- Witness for C2: a process that exits with code 0 within the
timeout yields `success = true` with exit code 0 recorded. -/
theorem c2_executor_success_iff_witness :
    (Executor.execute
          ⟨true, "", true, 0, -9, "ok\n", "", "", ""⟩
          (some 60) true true).exitCode = some 0 ∧
      ((Executor.execute
          ⟨true, "", true, 0, -9, "ok\n", "", "", ""⟩
          (some 60) true true).success = true ↔ (0 : Int) = 0) :=
  (c2_executor_success_iff
      ⟨true, "", true, 0, -9, "ok\n", "", "", ""⟩
      (some 60) true true).2 rfl rfl

/-- C7 (amended): a process still running at the timeout deadline is
killed and the result has `timedOut = true` and `success = false`
regardless of exit code; but only the non-streaming `communicate()`
path stores the output captured before the kill in `stdout`/`stderr` —
on the default streaming path (`capture_output and stream_output`) the
lines the reader threads captured are discarded and both fields are
left empty. -/
theorem c7_executor_timeout (b : Executor.ProcBehavior) (t : Nat)
    (captureOutput streamOutput : Bool)
    (hs : b.spawnOk = true) (hf : b.finishes = false) :
    (Executor.execute b (some t) captureOutput streamOutput).timedOut =
        true ∧
      (Executor.execute b (some t) captureOutput streamOutput).success =
        false ∧
      (captureOutput = true → streamOutput = true →
        (Executor.execute b (some t) captureOutput streamOutput).stdout =
            "" ∧
          (Executor.execute b (some t) captureOutput streamOutput).stderr =
            "") ∧
      (captureOutput = true → streamOutput = false →
        (Executor.execute b (some t) captureOutput streamOutput).stdout =
            b.capturedStdout ∧
          (Executor.execute b (some t) captureOutput streamOutput).stderr =
            b.capturedStderr) := by
  rcases hc : captureOutput <;> rcases ho : streamOutput <;>
    simp [Executor.execute, hs, hf, hc, ho]

/-- Witness for C7 on the non-streaming path: the captured output is
present and the run is marked timed out. -/
theorem c7_executor_timeout_witness :
    (Executor.execute
          ⟨true, "", false, 0, -9, "hello\nworld\n", "", "hello\n", ""⟩
          (some 5) true false).timedOut = true ∧
      (Executor.execute
          ⟨true, "", false, 0, -9, "hello\nworld\n", "", "hello\n", ""⟩
          (some 5) true false).success = false ∧
      (Executor.execute
          ⟨true, "", false, 0, -9, "hello\nworld\n", "", "hello\n", ""⟩
          (some 5) true false).stdout = "hello\n" := by
  have h := c7_executor_timeout
    ⟨true, "", false, 0, -9, "hello\nworld\n", "", "hello\n", ""⟩
    5 true false rfl rfl
  exact ⟨h.1, h.2.1, (h.2.2.2 rfl rfl).1⟩

/-- Counterexample to C7 as stated: on the default streaming path the
reader threads captured `"hello\n"` before the kill, yet the result's
`stdout` is the empty string — the captured output is not contained in
the result. -/
theorem c7_counterexample :
    (Executor.execute
          ⟨true, "", false, 0, -9, "hello\nworld\n", "", "hello\n", ""⟩
          (some 5) true true).timedOut = true ∧
      (Executor.execute
          ⟨true, "", false, 0, -9, "hello\nworld\n", "", "hello\n", ""⟩
          (some 5) true true).stdout = "" ∧
      Executor.strContains
        (Executor.execute
          ⟨true, "", false, 0, -9, "hello\nworld\n", "", "hello\n", ""⟩
          (some 5) true true).stdout "hello\n" = false := by
  refine ⟨rfl, rfl, ?_⟩
  decide

namespace RepoFinder

/-- A repository candidate as produced by the discovery collaborator
and consumed by `RepositoryFinder.get_official_repository`
(`repo_finder.py`): the fields the selection logic reads are
`is_official` and `source`; the list is already sorted by stars. -/
structure Candidate where
  url : String
  stars : Nat
  language : String
  source : String
  isOfficial : Bool
  archived : Bool
  deriving DecidableEq

/-- `RepositoryFinder.get_official_repository` (`repo_finder.py`,
lines 183-201): `None` on an empty list; else the first candidate with
`is_official` truthy; else the first candidate with
`source == 'paper_text'`; else `repos[0]` (the most starred, the list
being pre-sorted). -/
def get_official_repository (repos : List Candidate) : Option Candidate :=
  if repos.isEmpty then none
  else
    match repos.filter (fun r => r.isOfficial) with
    | r :: _ => some r
    | [] =>
      match repos.filter (fun r => r.source = "paper_text") with
      | r :: _ => some r
      | [] => repos.head?

theorem head?_filter {χ : Type} (p : χ → Bool) :
    ∀ l : List χ, (l.filter p).head? = l.find? p := by
  intro l
  induction l with
  | nil => rfl
  | cons a l ih =>
    cases h : p a <;> simp [List.filter_cons, List.find?_cons, h, ih]

end RepoFinder

/-- C8: non-interactive selection on a non-empty candidate list
returns the first candidate marked official if any exists, else the
first candidate with source `paper_text`, else the first (top-ranked)
candidate; in particular with three candidates of which exactly the
second is official, the second is selected whatever the star counts. -/
theorem c8_candidate_selection :
    (∀ repos : List RepoFinder.Candidate, repos ≠ [] →
      ((∃ r ∈ repos, r.isOfficial = true) →
        RepoFinder.get_official_repository repos =
          repos.find? (fun r => r.isOfficial)) ∧
      ((∀ r ∈ repos, r.isOfficial = false) →
        (∃ r ∈ repos, r.source = "paper_text") →
        RepoFinder.get_official_repository repos =
          repos.find? (fun r => r.source = "paper_text")) ∧
      ((∀ r ∈ repos, r.isOfficial = false) →
        (∀ r ∈ repos, r.source ≠ "paper_text") →
        RepoFinder.get_official_repository repos = repos.head?)) ∧
    (∀ c1 c2 c3 : RepoFinder.Candidate,
      c1.isOfficial = false → c2.isOfficial = true →
      RepoFinder.get_official_repository [c1, c2, c3] = some c2) := by
  have hmain : ∀ repos : List RepoFinder.Candidate, repos ≠ [] →
      ((∃ r ∈ repos, r.isOfficial = true) →
        RepoFinder.get_official_repository repos =
          repos.find? (fun r => r.isOfficial)) ∧
      ((∀ r ∈ repos, r.isOfficial = false) →
        (∃ r ∈ repos, r.source = "paper_text") →
        RepoFinder.get_official_repository repos =
          repos.find? (fun r => r.source = "paper_text")) ∧
      ((∀ r ∈ repos, r.isOfficial = false) →
        (∀ r ∈ repos, r.source ≠ "paper_text") →
        RepoFinder.get_official_repository repos = repos.head?) := by
    intro repos hne
    have hemp : repos.isEmpty = false := by
      cases repos with
      | nil => exact absurd rfl hne
      | cons a l => rfl
    refine ⟨?_, ?_, ?_⟩
    · rintro ⟨r, hr, hro⟩
      rw [RepoFinder.get_official_repository, if_neg (by simp [hemp])]
      have hfil : repos.filter (fun r => r.isOfficial) ≠ [] := by
        intro hnil
        have := List.filter_eq_nil.mp hnil r hr
        simp [hro] at this
      cases hcase : repos.filter (fun r => r.isOfficial) with
      | nil => exact absurd hcase hfil
      | cons x xs =>
        rw [← RepoFinder.head?_filter, hcase]
        rfl
    · intro hno ⟨r, hr, hrs⟩
      rw [RepoFinder.get_official_repository, if_neg (by simp [hemp])]
      have hfil1 : repos.filter (fun r => r.isOfficial) = [] :=
        List.filter_eq_nil.mpr (fun x hx => by simp [hno x hx])
      rw [hfil1]
      have hfil2 : repos.filter (fun r => r.source = "paper_text") ≠ [] := by
        intro hnil
        have := List.filter_eq_nil.mp hnil r hr
        simp [hrs] at this
      cases hcase : repos.filter (fun r => r.source = "paper_text") with
      | nil => exact absurd hcase hfil2
      | cons x xs =>
        rw [← RepoFinder.head?_filter, hcase]
        rfl
    · intro hno hns
      rw [RepoFinder.get_official_repository, if_neg (by simp [hemp])]
      have hfil1 : repos.filter (fun r => r.isOfficial) = [] :=
        List.filter_eq_nil.mpr (fun x hx => by simp [hno x hx])
      have hfil2 : repos.filter (fun r => r.source = "paper_text") = [] :=
        List.filter_eq_nil.mpr (fun x hx => by simp [hns x hx])
      rw [hfil1, hfil2]
  refine ⟨hmain, ?_⟩
  intro c1 c2 c3 h1 h2
  have h := (hmain [c1, c2, c3] (by simp)).1 ⟨c2, by simp, h2⟩
  rw [h]
  simp [List.find?_cons, h1, h2]

/-- Witness for C8: three concrete candidates where only the second is
official and the first has the most stars; selection returns the
second. -/
theorem c8_candidate_selection_witness :
    RepoFinder.get_official_repository
        [⟨"https://github.com/a/x", 900, "Python", "github_search",
            false, false⟩,
          ⟨"https://github.com/b/y", 3, "Python", "papers_with_code",
            true, false⟩,
          ⟨"https://github.com/c/z", 40, "Python", "paper_text",
            false, false⟩] =
      some ⟨"https://github.com/b/y", 3, "Python", "papers_with_code",
        true, false⟩ :=
  c8_candidate_selection.2
    ⟨"https://github.com/a/x", 900, "Python", "github_search",
      false, false⟩
    ⟨"https://github.com/b/y", 3, "Python", "papers_with_code",
      true, false⟩
    ⟨"https://github.com/c/z", 40, "Python", "paper_text",
      false, false⟩ rfl rfl

namespace EnvSetup

/-- The slice of the repository-analysis record (produced by the
external `RepositoryAnalyzer`) that `env_setup.py` and
`orchestrator.py` read: detected languages, the Python dependency
fields (`requirements_files`, `setup_py`, `conda_env`, `conda_files`),
the Node `package_json` flag, the entry-point commands (each
`entry_points[i].get('command')`, possibly absent), `docker_support`
and `container_files`. -/
structure Analysis where
  languages : List String
  pyRequirementsFiles : List String
  pySetupPy : Bool
  pyCondaEnv : Bool
  pyCondaFiles : List String
  nodePackageJson : Bool
  entryPoints : List (Option String)
  dockerSupport : Bool
  containerFiles : List String

/-- Outcome of one `subprocess.run(..., check=True, timeout=600)`
install step: success, a `CalledProcessError` (caught and recorded as
a non-fatal error, `msg` being the decoded stderr), or any other
exception (e.g. `TimeoutExpired`), which escapes the inner handler and
aborts the surrounding strategy. -/
inductive InstallOutcome where
  | ok
  | failed (msg : String)
  | raised
  deriving DecidableEq

/-- Outcome of the `docker build` subprocess: exit 0, non-zero exit
with decoded stderr, or `TimeoutExpired` after the 30-minute budget. -/
inductive BuildOutcome where
  | ok
  | failed (msg : String)
  | timedOut
  deriving DecidableEq

/-- External world oracles for `EnvironmentSetup`: availability of the
`docker`/`conda`/`npm` executables, the outcome of the docker build,
of each pip install (by requirements-file name), of the venv creation
and pip upgrade, of the conda body, of `pip install -e .`, and of
`npm install`.  `venvFatalMsg` / `condaErrorMsg` / `npmErrorMsg` are
the stringified exceptions the generic handlers interpolate into their
error messages.  The conda body runs several `check=True` subprocesses
(which ones depends on the analysis); it succeeds iff all of them do,
which `condaStepsOk` records, the caught exception text being
`condaErrorMsg` otherwise. -/
structure World where
  dockerAvailable : Bool
  dockerBuild : BuildOutcome
  condaAvailable : Bool
  condaStepsOk : Bool
  condaErrorMsg : String
  venvCreateOk : Bool
  pipUpgradeOk : Bool
  venvFatalMsg : String
  reqFileExists : String → Bool
  reqInstall : String → InstallOutcome
  setupPyExists : Bool
  setupPyInstall : InstallOutcome
  npmAvailable : Bool
  npmInstallOk : Bool
  npmErrorMsg : String

/-- The observable fields of one strategy's `result` dict (`type`,
`success`, `errors`).  Locator fields (paths, image names, activation
commands) are opaque strings the claims never mention and are not
modelled. -/
structure EnvResult where
  type : String
  success : Bool
  errors : List String
  deriving DecidableEq

/-- The loop over `python_deps['requirements_files']` in
`setup_python_venv` (`env_setup.py`, lines 78-93): each existing file
is pip-installed; a `CalledProcessError` appends a non-fatal error and
continues; any other exception aborts the strategy (second component
`true`), keeping the errors collected so far. -/
def installReqFiles (w : World) : List String → List String × Bool
  | [] => ([], false)
  | f :: fs =>
    if w.reqFileExists f then
      match w.reqInstall f with
      | .ok => installReqFiles w fs
      | .failed msg =>
        let rest := installReqFiles w fs
        (("Failed to install from " ++ f ++ ": " ++ msg) :: rest.1, rest.2)
      | .raised => ([], true)
    else installReqFiles w fs

/-- `EnvironmentSetup.setup_python_venv` (`env_setup.py`, lines
26-120): create the venv, upgrade pip (failures of either reach the
generic handler), install every discovered requirements file
(per-file failures are non-fatal), then `pip install -e .` when
`setup_py` is flagged and the file exists (its `CalledProcessError` is
likewise non-fatal); `success = True` unless an exception reached the
generic handler. -/
def setup_python_venv (w : World) (analysis : Analysis) : EnvResult :=
  if w.venvCreateOk = false ∨ w.pipUpgradeOk = false then
    ⟨"python_venv", false,
      ["Failed to setup Python environment: " ++ w.venvFatalMsg]⟩
  else
    let reqs := installReqFiles w analysis.pyRequirementsFiles
    if reqs.2 then
      ⟨"python_venv", false,
        reqs.1 ++ ["Failed to setup Python environment: " ++ w.venvFatalMsg]⟩
    else if analysis.pySetupPy && w.setupPyExists then
      match w.setupPyInstall with
      | .ok => ⟨"python_venv", true, reqs.1⟩
      | .failed msg =>
        ⟨"python_venv", true,
          reqs.1 ++ ["Failed to install from setup.py: " ++ msg]⟩
      | .raised =>
        ⟨"python_venv", false,
          reqs.1 ++ ["Failed to setup Python environment: " ++ w.venvFatalMsg]⟩
    else ⟨"python_venv", true, reqs.1⟩

/-- `EnvironmentSetup.setup_conda_env` (`env_setup.py`, lines
122-187): a missing `conda` executable is the distinct
`FileNotFoundError` branch; otherwise the body's `check=True`
subprocesses either all succeed or the caught exception is recorded. -/
def setup_conda_env (w : World) (_analysis : Analysis) : EnvResult :=
  if w.condaAvailable = false then
    ⟨"conda", false, ["Conda is not installed or not in PATH"]⟩
  else if w.condaStepsOk then ⟨"conda", true, []⟩
  else
    ⟨"conda", false,
      ["Failed to setup Conda environment: " ++ w.condaErrorMsg]⟩

/-- `EnvironmentSetup.setup_docker_env` (`env_setup.py`, lines
189-268): a missing `docker` executable is the `FileNotFoundError`
branch; else a file containing `Dockerfile` is looked up among
`analysis['container_files']` and its absence returns the explicit
"No Dockerfile found" error; else the build outcome decides. -/
def setup_docker_env (w : World) (analysis : Analysis) : EnvResult :=
  if w.dockerAvailable = false then
    ⟨"docker", false, ["Docker is not installed or not in PATH"]⟩
  else
    match analysis.containerFiles.filter
        (fun f => Executor.strContains f "Dockerfile") with
    | [] => ⟨"docker", false, ["No Dockerfile found"]⟩
    | _ :: _ =>
      match w.dockerBuild with
      | .ok => ⟨"docker", true, []⟩
      | .failed msg => ⟨"docker", false, ["Docker build failed: " ++ msg]⟩
      | .timedOut => ⟨"docker", false, ["Docker build timed out (30 minutes)"]⟩

/-- `EnvironmentSetup.setup_node_env` (`env_setup.py`, lines 270-321):
a missing `npm` executable is the `FileNotFoundError` branch; with a
`package.json` the `npm install` outcome decides; without one the
result keeps its initial `success = False` and empty error list. -/
def setup_node_env (w : World) (analysis : Analysis) : EnvResult :=
  if w.npmAvailable = false then
    ⟨"node", false, ["npm is not installed or not in PATH"]⟩
  else if analysis.nodePackageJson then
    if w.npmInstallOk then ⟨"node", true, []⟩
    else
      ⟨"node", false,
        ["Failed to setup Node.js environment: " ++ w.npmErrorMsg]⟩
  else ⟨"node", false, []⟩

/-- The `results` list of `auto_setup` (`env_setup.py`, lines
350-372): for a Python-bearing repository, the conda strategy when
preferred (falling back to venv when it fails — only the fallback's
result is appended then), else the venv strategy; plus the Node
strategy when JavaScript or TypeScript is detected. -/
def langResults (w : World) (analysis : Analysis)
    (preferConda : Bool) : List EnvResult :=
  (if analysis.languages.contains "Python" then
    (if preferConda then
      let conda := setup_conda_env w analysis
      if conda.success then [conda] else [setup_python_venv w analysis]
    else [setup_python_venv w analysis])
  else []) ++
  (if analysis.languages.contains "JavaScript" ||
      analysis.languages.contains "TypeScript" then
    [setup_node_env w analysis]
  else [])

/-- The aggregate result of `auto_setup`: a single strategy result
(docker), or the `multi` / `none` aggregation with the individual
strategy results under `environments`. -/
structure AutoResult where
  type : String
  success : Bool
  errors : List String
  environments : List EnvResult
  deriving DecidableEq

/-- Lift one strategy's result to the aggregate type. -/
def singleResult (r : EnvResult) : AutoResult := ⟨r.type, r.success, r.errors, []⟩

/-- `EnvironmentSetup.auto_setup` (`env_setup.py`, lines 323-389):
when docker is preferred and the analysis flags docker support, try
the docker strategy and return it on success; otherwise attempt the
language-based strategies and aggregate: `multi` with
`success = any(r['success'])` when at least one was attempted, `none`
with an explicit error otherwise. -/
def auto_setup (w : World) (analysis : Analysis)
    (preferDocker preferConda : Bool) : AutoResult :=
  let fallthrough :=
    let results := langResults w analysis preferConda
    if results.isEmpty then
      ⟨"none", false, ["No compatible environment setup found"], []⟩
    else
      (⟨"multi", results.any (fun r => r.success), [], results⟩ : AutoResult)
  if preferDocker && analysis.dockerSupport then
    let docker := setup_docker_env w analysis
    if docker.success then singleResult docker else fallthrough
  else fallthrough

end EnvSetup

/-- C9: with docker available, `dockerSupport = true` and no file
containing `Dockerfile` among the container files, the docker strategy
returns `success = false` with the explicit "No Dockerfile found"
error (it does not raise — the model is total); `auto_setup` then
falls through to the language-implied strategies, aggregated under a
`multi` descriptor when any was attempted (`none` otherwise), and its
overall success holds exactly when at least one attempted strategy
succeeded. -/
theorem c9_docker_fallback (w : EnvSetup.World) (analysis : EnvSetup.Analysis)
    (preferConda : Bool)
    (hdock : w.dockerAvailable = true)
    (hsup : analysis.dockerSupport = true)
    (hnofile : analysis.containerFiles.filter
      (fun f => Executor.strContains f "Dockerfile") = []) :
    ((EnvSetup.setup_docker_env w analysis).success = false ∧
      "No Dockerfile found" ∈ (EnvSetup.setup_docker_env w analysis).errors) ∧
    (EnvSetup.auto_setup w analysis true preferConda =
      (if (EnvSetup.langResults w analysis preferConda).isEmpty then
        ⟨"none", false, ["No compatible environment setup found"], []⟩
      else
        ⟨"multi",
          (EnvSetup.langResults w analysis preferConda).any
            (fun r => r.success), [],
          EnvSetup.langResults w analysis preferConda⟩)) ∧
    ((EnvSetup.auto_setup w analysis true preferConda).success = true ↔
      ∃ r ∈ EnvSetup.langResults w analysis preferConda,
        r.success = true) := by
  have hdockres : EnvSetup.setup_docker_env w analysis =
      ⟨"docker", false, ["No Dockerfile found"]⟩ := by
    rw [EnvSetup.setup_docker_env, if_neg (by simp [hdock]), hnofile]
  have hauto : EnvSetup.auto_setup w analysis true preferConda =
      (if (EnvSetup.langResults w analysis preferConda).isEmpty then
        ⟨"none", false, ["No compatible environment setup found"], []⟩
      else
        ⟨"multi",
          (EnvSetup.langResults w analysis preferConda).any
            (fun r => r.success), [],
          EnvSetup.langResults w analysis preferConda⟩) := by
    rw [EnvSetup.auto_setup]
    simp only [hsup, Bool.and_true, if_true, hdockres]
    rw [if_neg Bool.false_ne_true]
  refine ⟨⟨by rw [hdockres], by rw [hdockres]; exact List.mem_singleton.mpr rfl⟩,
    hauto, ?_⟩
  rw [hauto]
  cases hres : EnvSetup.langResults w analysis preferConda with
  | nil => simp
  | cons r rs => simp [List.any_eq_true]

/-- Witness for C9: docker available, docker support flagged but only
a compose file present; a Python repository whose venv strategy
succeeds gives a successful `multi` aggregate. -/
theorem c9_docker_fallback_witness :
    ((EnvSetup.setup_docker_env
          ⟨true, .ok, false, false, "", true, true, "",
            fun _ => false, fun _ => .ok, false, .ok, false, true, ""⟩
          ⟨["Python"], [], false, false, [], false, [some "python main.py"],
            true, ["docker-compose.yml"]⟩).success = false ∧
      "No Dockerfile found" ∈
        (EnvSetup.setup_docker_env
          ⟨true, .ok, false, false, "", true, true, "",
            fun _ => false, fun _ => .ok, false, .ok, false, true, ""⟩
          ⟨["Python"], [], false, false, [], false, [some "python main.py"],
            true, ["docker-compose.yml"]⟩).errors) ∧
      ((EnvSetup.auto_setup
          ⟨true, .ok, false, false, "", true, true, "",
            fun _ => false, fun _ => .ok, false, .ok, false, true, ""⟩
          ⟨["Python"], [], false, false, [], false, [some "python main.py"],
            true, ["docker-compose.yml"]⟩ true false).success = true ↔
        ∃ r ∈ EnvSetup.langResults
          ⟨true, .ok, false, false, "", true, true, "",
            fun _ => false, fun _ => .ok, false, .ok, false, true, ""⟩
          ⟨["Python"], [], false, false, [], false, [some "python main.py"],
            true, ["docker-compose.yml"]⟩ false, r.success = true) := by
  have h := c9_docker_fallback
    ⟨true, .ok, false, false, "", true, true, "",
      fun _ => false, fun _ => .ok, false, .ok, false, true, ""⟩
    ⟨["Python"], [], false, false, [], false, [some "python main.py"],
      true, ["docker-compose.yml"]⟩ false rfl rfl (by decide)
  exact ⟨h.1, h.2.2⟩

namespace Diag

/-- Case-insensitive literal match at the head of `cs`: `ps` is the
literal already lowered; returns the remainder on success.  Models the
effect of `re.IGNORECASE` on a literal (the analysed texts are ASCII,
where Python's case folding and `Char.toLower` agree). -/
def ciStrip : List Char → List Char → Option (List Char)
  | [], cs => some cs
  | _ :: _, [] => none
  | p :: ps, c :: cs => if c.toLower = p then ciStrip ps cs else none

/-- Python `\w` on the analysed (ASCII) texts: letters, digits,
underscore. -/
def isWordChar (c : Char) : Bool := c.isAlphanum || c = '_'

/-- The maximal (greedy `\w+`) word-character prefix and the rest. -/
def wordRun : List Char → List Char × List Char
  | [] => ([], [])
  | c :: cs =>
    if isWordChar c then
      let r := wordRun cs
      (c :: r.1, r.2)
    else ([], c :: cs)

/-- The character class `['\"]`. -/
def isQuoteChar (c : Char) : Bool := c = '\'' || c = '"'

/-- Leftmost-match search, as `re.search` performs it: try the
matcher at every start position from the left. -/
def searchAt (f : List Char → Option String) : List Char → Option String
  | [] => f []
  | c :: cs =>
    match f (c :: cs) with
    | some m => some m
    | none => searchAt f cs

/-- A literal followed by `'(\w+)'` at the head position: shared shape
of the missing-module and broken-import patterns (greedy `\w+` then a
mandatory closing quote). -/
def litWordQuoteAt (lit : List Char) (cs : List Char) : Option String :=
  match ciStrip lit cs with
  | none => none
  | some rest =>
    let wr := wordRun rest
    if wr.1.isEmpty then none
    else
      match wr.2 with
      | c :: _ => if c = '\'' then some (String.mk wr.1) else none
      | [] => none

/-- `ModuleNotFoundError: No module named '(\w+)'` under
`re.IGNORECASE`: leftmost match, capture = the module name. -/
def matchModuleNotFound (text : String) : Option String :=
  searchAt (litWordQuoteAt "modulenotfounderror: no module named '".data)
    text.data

/-- `ImportError: cannot import name '(\w+)'`. -/
def matchImportError (text : String) : Option String :=
  searchAt (litWordQuoteAt "importerror: cannot import name '".data)
    text.data

/-- `KeyError: ['\"](\w+)['\"]` at the head position. -/
def keyErrorAt (cs : List Char) : Option String :=
  match ciStrip "keyerror: ".data cs with
  | none => none
  | some rest =>
    match rest with
    | [] => none
    | q :: rest2 =>
      if isQuoteChar q then
        let wr := wordRun rest2
        if wr.1.isEmpty then none
        else
          match wr.2 with
          | c :: _ => if isQuoteChar c then some (String.mk wr.1) else none
          | [] => none
      else none

/-- `KeyError: ['\"](\w+)['\"]`, leftmost. -/
def matchKeyError (text : String) : Option String :=
  searchAt keyErrorAt text.data

/-- A literal followed by `(.+)` at the head position: `.` does not
cross a newline, and the greedy capture runs to the end of the line,
which must be non-empty. -/
def litLineRestAt (lit : List Char) (cs : List Char) : Option String :=
  match ciStrip lit cs with
  | none => none
  | some rest =>
    let line := rest.takeWhile (fun c => c ≠ '\n')
    if line.isEmpty then none else some (String.mk line)

/-- `ValueError: (.+)`, leftmost. -/
def matchValueError (text : String) : Option String :=
  searchAt (litLineRestAt "valueerror: ".data) text.data

/-- `TypeError: (.+)`, leftmost. -/
def matchTypeError (text : String) : Option String :=
  searchAt (litLineRestAt "typeerror: ".data) text.data

/-- `FileNotFoundError.*['\"](.+?)['\"]` at the head position: after
the literal, the greedy `.*` stays within the line and backtracks, so
the opening quote is the rightmost quote on the line that still leaves
a non-empty lazy capture closed by a further quote; the lazy `(.+?)`
makes that capture end at the first quote at least one character
later. -/
def fnfeAt (cs : List Char) : Option String :=
  match ciStrip "filenotfounderror".data cs with
  | none => none
  | some rest =>
    let line := rest.takeWhile (fun c => c ≠ '\n')
    (((List.range line.length).filter
        (fun i => isQuoteChar (line.getD i ' '))).reverse).findSome?
      (fun q =>
        let tail := line.drop (q + 1)
        match (tail.drop 1).findIdx? isQuoteChar with
        | some j => some (String.mk (tail.take (j + 1)))
        | none => none)

/-- `FileNotFoundError.*['\"](.+?)['\"]`, leftmost. -/
def matchFileNotFound (text : String) : Option String :=
  searchAt fnfeAt text.data

/-- `lit in text`, case-insensitively (a literal regex alternative
under `re.IGNORECASE` is found somewhere iff this holds). -/
def ciContainsLit (lit : String) (text : String) : Bool :=
  Executor.containsSub (lit.data.map Char.toLower)
    (text.data.map Char.toLower)

/-- `CUDA|cuda|RuntimeError: CUDA` under `re.IGNORECASE` (no groups). -/
def matchCudaError (text : String) : Bool :=
  ciContainsLit "CUDA" text || ciContainsLit "cuda" text ||
    ciContainsLit "RuntimeError: CUDA" text

/-- `OutOfMemoryError|CUDA out of memory`. -/
def matchOutOfMemory (text : String) : Bool :=
  ciContainsLit "OutOfMemoryError" text ||
    ciContainsLit "CUDA out of memory" text

/-- `PermissionError`. -/
def matchPermissionError (text : String) : Bool :=
  ciContainsLit "PermissionError" text

/-- `ConnectionError|Connection refused|timeout`. -/
def matchConnectionError (text : String) : Bool :=
  ciContainsLit "ConnectionError" text ||
    ciContainsLit "Connection refused" text || ciContainsLit "timeout" text

/-- `version|Version|compatible|compatibility`. -/
def matchVersionConflict (text : String) : Bool :=
  ciContainsLit "version" text || ciContainsLit "Version" text ||
    ciContainsLit "compatible" text || ciContainsLit "compatibility" text

/-- Replace every occurrence of the placeholder `ph` in the remaining
characters by `val`, with enough fuel for the whole input (Python
`str.format` replaces each occurrence of the named placeholder). -/
def replacePhFuel (ph val : List Char) : Nat → List Char → List Char
  | 0, l => l
  | _ + 1, [] => []
  | fuel + 1, c :: cs =>
    if ph.isPrefixOf (c :: cs) then
      val ++ replacePhFuel ph val fuel (List.drop (ph.length - 1) cs)
    else c :: replacePhFuel ph val fuel cs

/-- `fix.format(module=..)` / `(key=..)` / `(file=..)` on one
placeholder. -/
def formatWith (ph detail fix : String) : String :=
  String.mk (replacePhFuel ph.data detail.data fix.data.length fix.data)

/-- The placeholder substitution of `ErrorDiagnoser.diagnose`
(`error_diagnosis.py`, lines 170-179): try `{module}`, then `{key}`,
then `{file}`; fixes with no placeholder pass through unchanged. -/
def substFix (detail fix : String) : String :=
  if Executor.strContains fix "{module}" then formatWith "{module}" detail fix
  else if Executor.strContains fix "{key}" then formatWith "{key}" detail fix
  else if Executor.strContains fix "{file}" then formatWith "{file}" detail fix
  else fix

/-- The fix templates of `_initialize_patterns`
(`error_diagnosis.py`, lines 20-132), one list per pattern, in the
source's order and wording. -/
def mnfeFixes : List String :=
  ["Install the missing package: pip install {module}",
    "Check if package name has changed or been deprecated",
    "Try installing with conda: conda install {module}",
    "Check requirements.txt for correct package name"]

def importErrorFixes : List String :=
  ["Package version mismatch - check requirements.txt for correct version",
    "Try upgrading the package: pip install --upgrade {module}",
    "The import may have been moved in newer versions"]

def cudaFixes : List String :=
  ["Install CUDA toolkit matching PyTorch/TensorFlow version",
    "Check GPU availability: nvidia-smi",
    "Set environment to use CPU: export CUDA_VISIBLE_DEVICES=''",
    "Update GPU drivers",
    "Try CPU version of the framework"]

def oomFixes : List String :=
  ["Reduce batch size in training/inference",
    "Clear GPU cache: torch.cuda.empty_cache()",
    "Use gradient accumulation instead of large batches",
    "Enable mixed precision training (fp16)",
    "Use a smaller model variant"]

def fnfeFixes : List String :=
  ["Download required data files",
    "Check data directory paths in config files",
    "Run data preparation scripts first",
    "Update file paths to match your directory structure"]

def permissionFixes : List String :=
  ["Check file/directory permissions: ls -la",
    "You may need write permissions: chmod +w {file}",
    "Try running with appropriate permissions",
    "Check if file is being used by another process"]

def connectionFixes : List String :=
  ["Check internet connection",
    "API endpoint may be down - try again later",
    "Check firewall settings",
    "Increase timeout in configuration"]

def valueErrorFixes : List String :=
  ["Check input data format and types",
    "Verify configuration parameters",
    "Look at the specific error message for hints",
    "Check data preprocessing steps"]

def keyErrorFixes : List String :=
  ["Missing required key '{key}' in config or data",
    "Check configuration file for required fields",
    "Verify data format matches expected structure"]

def typeErrorFixes : List String :=
  ["Type mismatch - check function arguments",
    "May be caused by version incompatibility",
    "Review API documentation for correct types"]

def versionConflictFixes : List String :=
  ["Check package version requirements",
    "Create fresh virtual environment",
    "Use pip freeze to check installed versions",
    "Refer to paper's requirements for exact versions"]

/-- The `Diagnosis` dict returned by `ErrorDiagnoser.diagnose`
(`error_diagnosis.py`, lines 145-152): `description` is the first 200
characters of the input. -/
structure Diagnosis where
  errorType : String
  category : String
  description : String
  rootCause : Option String
  suggestedFixes : List String
  matchedPattern : Bool
  deriving DecidableEq

/-- The optional `context` dict of `diagnose`: `gpu_available`
(consulted with default `True`), a truthy `python_version` string, and
a truthy `docker_available` flag. -/
structure Ctx where
  gpuAvailable : Option Bool
  pythonVersion : Option String
  dockerAvailable : Bool

/-- `_get_context_specific_fixes` (`error_diagnosis.py`, lines
194-212).  The source prefixes the first and third messages with emoji
glyphs (mojibake in the file's encoding), omitted here. -/
def contextFixes (category : String) (c : Ctx) : List String :=
  (if category = "gpu" then
    match c.gpuAvailable with
    | some false => ["No GPU detected - consider using CPU-only version"]
    | _ => []
  else []) ++
  (if category = "dependency" then
    match c.pythonVersion with
    | some v => ["Python version: " ++ v ++ " - check compatibility"]
    | none => []
  else []) ++
  (if c.dockerAvailable then
    ["Consider using Docker for better isolation"]
  else [])

/-- `ErrorDiagnoser.diagnose` (`error_diagnosis.py`, lines 134-192):
first-match-wins over the ordered pattern table of
`_initialize_patterns` (insertion order: missing module, broken
import, CUDA fault, out-of-memory, missing file, permission fault,
connection fault, value fault, key fault, type fault, version
conflict); a pattern with a capture group sets `root_cause` and
substitutes the detail into the placeholder fixes, one without a group
passes its fixes through unchanged; no match leaves the `unknown`
defaults with `matched_pattern = False`; a supplied context appends
its category-conditioned extra fixes. -/
def diagnose (text : String) (ctx : Option Ctx) : Diagnosis :=
  let base : Diagnosis :=
    ⟨"unknown", "unknown", text.take 200, none, [], false⟩
  let withMatch (name category : String) (root : Option String)
      (fixes : List String) : Diagnosis :=
    { base with
      errorType := name
      category := category
      rootCause := root
      suggestedFixes := fixes
      matchedPattern := true }
  let d :=
    match matchModuleNotFound text with
    | some detail =>
      withMatch "ModuleNotFoundError" "dependency" (some detail)
        (mnfeFixes.map (substFix detail))
    | none =>
    match matchImportError text with
    | some detail =>
      withMatch "ImportError" "dependency" (some detail)
        (importErrorFixes.map (substFix detail))
    | none =>
    if matchCudaError text then
      withMatch "CUDA_ERROR" "gpu" none cudaFixes
    else if matchOutOfMemory text then
      withMatch "OutOfMemoryError" "gpu" none oomFixes
    else
    match matchFileNotFound text with
    | some detail =>
      withMatch "FileNotFoundError" "data" (some detail)
        (fnfeFixes.map (substFix detail))
    | none =>
    if matchPermissionError text then
      withMatch "PermissionError" "system" none permissionFixes
    else if matchConnectionError text then
      withMatch "ConnectionError" "network" none connectionFixes
    else
    match matchValueError text with
    | some detail =>
      withMatch "ValueError" "runtime" (some detail)
        (valueErrorFixes.map (substFix detail))
    | none =>
    match matchKeyError text with
    | some detail =>
      withMatch "KeyError" "runtime" (some detail)
        (keyErrorFixes.map (substFix detail))
    | none =>
    match matchTypeError text with
    | some detail =>
      withMatch "TypeError" "runtime" (some detail)
        (typeErrorFixes.map (substFix detail))
    | none =>
    if matchVersionConflict text then
      withMatch "VersionConflict" "dependency" none versionConflictFixes
    else base
  match ctx with
  | none => d
  | some c =>
    { d with suggestedFixes := d.suggestedFixes ++ contextFixes d.category c }

end Diag

theorem mnfe_fixes_subst (detail : String) :
    Diag.mnfeFixes.map (Diag.substFix detail) =
      ["Install the missing package: pip install " ++ detail,
        "Check if package name has changed or been deprecated",
        "Try installing with conda: conda install " ++ detail,
        "Check requirements.txt for correct package name"] := by
  cases detail with
  | mk ddata =>
    simp [Diag.mnfeFixes, Diag.substFix, Diag.formatWith, Diag.replacePhFuel,
      Executor.strContains, Executor.containsSub, List.isPrefixOf,
      String.append]
    exact ⟨rfl, rfl⟩

/-- C10 (amended): for every input text whose leftmost match of the
missing-module pattern captures the module name `m` (in particular any
text containing `ModuleNotFoundError: No module named 'foo'` with no
earlier missing-module mention, where `m = "foo"`), `diagnose` returns
`errorType = "ModuleNotFoundError"`, `category = "dependency"`,
`rootCause = m`, `matchedPattern = true`, and the suggested fixes with
`m` substituted — the first of which contains `m`.  Because the
missing-module pattern heads the ordered table and matching is
first-match-wins, this holds whatever later patterns also match the
text. -/
theorem c10_diagnose_missing_module (text m : String)
    (hm : Diag.matchModuleNotFound text = some m) :
    Diag.diagnose text none =
      ⟨"ModuleNotFoundError", "dependency", text.take 200, some m,
        ["Install the missing package: pip install " ++ m,
          "Check if package name has changed or been deprecated",
          "Try installing with conda: conda install " ++ m,
          "Check requirements.txt for correct package name"], true⟩ ∧
      ("Install the missing package: pip install " ++ m) ∈
        (Diag.diagnose text none).suggestedFixes := by
  have hd : Diag.diagnose text none =
      ⟨"ModuleNotFoundError", "dependency", text.take 200, some m,
        ["Install the missing package: pip install " ++ m,
          "Check if package name has changed or been deprecated",
          "Try installing with conda: conda install " ++ m,
          "Check requirements.txt for correct package name"], true⟩ := by
    rw [Diag.diagnose]
    simp only [hm, mnfe_fixes_subst]
  refine ⟨hd, ?_⟩
  rw [hd]
  exact List.mem_cons_self _ _

/-- Witness for C10 at the spec's own example text. -/
theorem c10_diagnose_missing_module_witness :
    Diag.diagnose "ModuleNotFoundError: No module named 'foo'" none =
      ⟨"ModuleNotFoundError", "dependency",
        ("ModuleNotFoundError: No module named 'foo'" : String).take 200,
        some "foo",
        ["Install the missing package: pip install " ++ "foo",
          "Check if package name has changed or been deprecated",
          "Try installing with conda: conda install " ++ "foo",
          "Check requirements.txt for correct package name"], true⟩ ∧
      ("Install the missing package: pip install " ++ "foo") ∈
        (Diag.diagnose "ModuleNotFoundError: No module named 'foo'"
          none).suggestedFixes :=
  c10_diagnose_missing_module "ModuleNotFoundError: No module named 'foo'"
    "foo" (by decide)

/-- Counterexample to C10 as stated: a text that does contain
`ModuleNotFoundError: No module named 'foo'`, but whose leftmost
missing-module match names `bar` — `re.search` returns the leftmost
match, so `rootCause` is `bar`, not `foo`. -/
theorem c10_counterexample :
    Executor.strContains
        "ModuleNotFoundError: No module named 'bar'. ModuleNotFoundError: No module named 'foo'."
        "ModuleNotFoundError: No module named 'foo'" = true ∧
      (Diag.diagnose
        "ModuleNotFoundError: No module named 'bar'. ModuleNotFoundError: No module named 'foo'."
        none).rootCause = some "bar" ∧
      (Diag.diagnose
        "ModuleNotFoundError: No module named 'bar'. ModuleNotFoundError: No module named 'foo'."
        none).rootCause ≠ some "foo" := by
  refine ⟨by decide, by decide, by decide⟩

namespace Orch

/-- One value of the checkpoint JSON mapping: the ISO timestamp
(modelled in seconds) and the stage data (opaque). -/
structure CheckpointEntry where
  timestamp : Nat
  data : String
  deriving DecidableEq

/-- The checkpoint file: the JSON object mapping stage names to
entries (insertion-ordered, as Python dicts are), with the sibling
`last_stage` key modelled as a separate field. -/
structure CheckpointFile where
  entries : List (String × CheckpointEntry)
  lastStage : Option String
  deriving DecidableEq

/-- Key lookup in the insertion-ordered JSON mapping. -/
def lookupStage : List (String × CheckpointEntry) → String →
    Option CheckpointEntry
  | [], _ => none
  | (k, v) :: rest, s => if s = k then some v else lookupStage rest s

/-- `ReproductionOrchestrator._save_checkpoint` (`orchestrator.py`,
lines 410-433): load the existing mapping (empty when the file is
missing), overwrite or append the stage's entry (Python dict
assignment: in-place overwrite of an existing key, append of a new
one), set `last_stage`, write back. -/
def saveCheckpoint (cp : CheckpointFile) (stage : String)
    (e : CheckpointEntry) : CheckpointFile :=
  { entries :=
      if (lookupStage cp.entries stage).isSome then
        cp.entries.map (fun p => if p.1 = stage then (stage, e) else p)
      else cp.entries ++ [(stage, e)]
    lastStage := some stage }

/-- The stage sequence named by the specification. -/
def stageNames : List String :=
  ["initialized", "discovered", "selected", "analyzed", "provisioned",
    "executed", "diagnosed", "reported"]

/-- External world oracles for one `_reproduce_from_metadata` run: the
paper metadata (opaque), the clock, the AI agent's presence and
answers (`none` models a raised exception, caught and ignored), the
discovery collaborator's candidate list, the interactive session's
answers, the clone outcome, the analyzer's record, and the
environment / process worlds of the provisioning and execution
stages. -/
structure World where
  paperMeta : String
  now : Nat
  useAi : Bool
  aiAgentPresent : Bool
  aiExplainRes : Option String
  aiSuggestRes : Option String
  aiDebugRes : Option String
  repos : List RepoFinder.Candidate
  userSelectedRepo : Option RepoFinder.Candidate
  cloneOk : Bool
  analysis : EnvSetup.Analysis
  userConfirms : Bool
  userEnvType : Option String
  userRunCommand : Option String
  userEntryPointCommand : Option (Option String)
  userTimeoutMinutes : Option Nat
  env : EnvSetup.World
  proc : Executor.ProcBehavior

/-- The report dict of the orchestrator (`orchestrator.py`, lines
63-72): `analysis` / `environment` / `execution` start as empty dicts
(modelled `none`), `success` as `False`. -/
structure Report where
  paper : String
  repositories : List RepoFinder.Candidate
  analysis : Option EnvSetup.Analysis
  environment : Option EnvSetup.AutoResult
  execution : Option Executor.ExecutionResult
  aiInsights : List (String × String)
  success : Bool
  timestamp : Option Nat

/-- What one run leaves behind: the returned report, the checkpoint
file, how many times `_save_report` ran, and whether the terminal
summary block was printed. -/
structure RunOutcome where
  report : Report
  checkpoint : CheckpointFile
  savedReportCount : Nat
  summaryPrinted : Bool

/-- The `ai_insights` entries after the optional AI paper explanation
(`orchestrator.py`, lines 210-217; an exception is caught and adds
nothing). -/
def explainInsights (w : World) : List (String × String) :=
  if w.useAi && w.aiAgentPresent then
    match w.aiExplainRes with
    | some x => [("paper_explanation", x)]
    | none => []
  else []

/-- The `ai_insights` entries after the optional AI parameter
suggestions (lines 297-304). -/
def aiAfterAnalysis (w : World) : List (String × String) :=
  explainInsights w ++
    (if w.useAi && w.aiAgentPresent then
      match w.aiSuggestRes with
      | some x => [("parameter_suggestions", x)]
      | none => []
    else [])

/-- The `ai_insights` entry the AI error analysis adds after a failed
execution (lines 372-380). -/
def debugInsights (w : World) (success : Bool) : List (String × String) :=
  if w.useAi && w.aiAgentPresent && !success then
    match w.aiDebugRes with
    | some x => [("error_analysis", x)]
    | none => []
  else []

/-- Step 4's environment-type choice (lines 321-324): the user's
truthy `env_type` in interactive mode, else `'auto'`. -/
def chosenEnvType (w : World) (interactive : Bool) : String :=
  if interactive && w.userEnvType.isSome then w.userEnvType.getD "auto"
  else "auto"

/-- Step 4's strategy dispatch (lines 326-333): docker when chosen or
when auto mode meets `docker_support`; else conda / venv on request;
else `auto_setup` with its default `prefer_docker=True,
prefer_conda=False`. -/
def chosenEnvInfo (w : World) (interactive : Bool) : EnvSetup.AutoResult :=
  let envType := chosenEnvType w interactive
  if envType = "docker" ||
      (envType = "auto" && w.analysis.dockerSupport) then
    EnvSetup.singleResult (EnvSetup.setup_docker_env w.env w.analysis)
  else if envType = "conda" then
    EnvSetup.singleResult (EnvSetup.setup_conda_env w.env w.analysis)
  else if envType = "venv" then
    EnvSetup.singleResult (EnvSetup.setup_python_venv w.env w.analysis)
  else EnvSetup.auto_setup w.env w.analysis true false

/-- Step 5's command choice (lines 352-362): the user's run command,
else the user's chosen entry point's command, else the first analysed
entry point's command; `none` means the pipeline halts and instructs
the caller to run manually.  The inner `Option String` is the
`.get('command')` value, which may itself be absent. -/
def chosenCommand (w : World) (interactive : Bool) :
    Option (Option String) :=
  if interactive && w.userRunCommand.isSome then some w.userRunCommand
  else if interactive && w.userEntryPointCommand.isSome then
    some (w.userEntryPointCommand.getD none)
  else
    match w.analysis.entryPoints with
    | ep :: _ => some ep
    | [] => none

/-- `timeout or (user_config.get('timeout_minutes', 30) * 60)`
(line 365): a `0` caller timeout is falsy and falls back to the
default; `user_config` is empty in non-interactive runs. -/
def effectiveTimeout (w : World) (interactive : Bool)
    (timeout : Option Nat) : Nat :=
  let dflt := (if interactive then w.userTimeoutMinutes.getD 30 else 30) * 60
  match timeout with
  | some t => if t ≠ 0 then t else dflt
  | none => dflt

/-- Step 5's execution (line 366), with the executor's default
`capture_output = stream_output = True`. -/
def runExecution (w : World) (interactive : Bool) (timeout : Option Nat) :
    Executor.ExecutionResult :=
  Executor.execute w.proc (some (effectiveTimeout w interactive timeout))
    true true

/-- The report returned when no repositories are found
(`orchestrator.py`, lines 230-234). -/
def reportNoRepos (w : World) : Report :=
  ⟨w.paperMeta, [], none, none, none, explainInsights w, false, some w.now⟩

/-- The report returned on the interactive no-selection and
clone-failure halts (lines 251-253, 271-274): repositories recorded,
nothing later. -/
def reportPreAnalysis (w : World) : Report :=
  ⟨w.paperMeta, w.repos, none, none, none, explainInsights w, false,
    some w.now⟩

/-- The report returned on the interactive cancellation halt (lines
312-314): analysis recorded. -/
def reportPostAnalysis (w : World) : Report :=
  ⟨w.paperMeta, w.repos, some w.analysis, none, none, aiAfterAnalysis w,
    false, some w.now⟩

/-- The report returned on the environment-failure and no-entry-point
halts (lines 337-342, 359-362): environment recorded. -/
def reportPostEnv (w : World) (interactive : Bool) : Report :=
  ⟨w.paperMeta, w.repos, some w.analysis,
    some (chosenEnvInfo w interactive), none, aiAfterAnalysis w, false,
    some w.now⟩

/-- The report of a run that reaches execution (lines 364-395). -/
def reportFinal (w : World) (interactive : Bool) (timeout : Option Nat) :
    Report :=
  ⟨w.paperMeta, w.repos, some w.analysis,
    some (chosenEnvInfo w interactive),
    some (runExecution w interactive timeout),
    aiAfterAnalysis w ++
      debugInsights w (runExecution w interactive timeout).success,
    (runExecution w interactive timeout).success, some w.now⟩

/-- The body of `_reproduce_from_metadata` (`orchestrator.py`, lines
174-395) after the single checkpoint write, producing the returned
report, the `_save_report` count and the terminal-summary flag.
Every `return self.report` before step 6 leaves the count at 0 and
the summary unprinted; only the path that reaches execution calls
`_save_report` (once, line 383) and prints the summary block (lines
386-393). -/
def reproduceCore (w : World) (interactive : Bool) (timeout : Option Nat) :
    Report × Nat × Bool :=
  if w.repos.isEmpty then (reportNoRepos w, 0, false)
  else if interactive && w.userSelectedRepo.isNone then
    (reportPreAnalysis w, 0, false)
  else if !w.cloneOk then (reportPreAnalysis w, 0, false)
  else if interactive && !w.userConfirms then
    (reportPostAnalysis w, 0, false)
  else if !(chosenEnvInfo w interactive).success then
    (reportPostEnv w interactive, 0, false)
  else
    match chosenCommand w interactive with
    | none => (reportPostEnv w interactive, 0, false)
    | some _cmd => (reportFinal w interactive timeout, 1, true)

/-- One full `_reproduce_from_metadata` run: the checkpoint file is
written exactly once, by the `_save_checkpoint('initialized', ...)`
call at line 207, before any stage runs; no later code touches it, so
its final content is the same on every path of the body. -/
def reproduce (w : World) (interactive : Bool) (timeout : Option Nat) :
    RunOutcome :=
  let cp :=
    saveCheckpoint ⟨[], none⟩ "initialized" ⟨w.now, w.paperMeta⟩
  let core := reproduceCore w interactive timeout
  ⟨core.1, cp, core.2.1, core.2.2⟩

/-- The persistence/summary behaviour of one run: the report is
persisted exactly once and the summary printed when and only when the
run reaches the execution stage, and a halted run's report has
`success = false`. -/
def PersistSpec (c : Report × Nat × Bool) : Prop :=
  (c.2.1 = if c.1.execution.isSome then 1 else 0) ∧
    (c.2.2 = c.1.execution.isSome) ∧
    (c.1.execution.isNone = true → c.1.success = false)

theorem lookupStage_map_updateKey (stage s : String) (e : CheckpointEntry)
    (h : s ≠ stage) :
    ∀ l : List (String × CheckpointEntry),
      lookupStage
          (l.map (fun p => if p.1 = stage then (stage, e) else p)) s =
        lookupStage l s := by
  intro l
  induction l with
  | nil => rfl
  | cons p rest ih =>
    obtain ⟨k, v⟩ := p
    by_cases hp : k = stage
    · subst hp
      rw [show (List.map (fun p => if p.1 = k then (k, e) else p)
          ((k, v) :: rest)) =
          (k, e) :: List.map (fun p => if p.1 = k then (k, e) else p) rest
          from by simp]
      show (if s = k then some e else _) = (if s = k then some v else _)
      rw [if_neg h, if_neg h]
      exact ih
    · rw [show (List.map (fun p => if p.1 = stage then (stage, e) else p)
          ((k, v) :: rest)) =
          (k, v) :: List.map (fun p => if p.1 = stage then (stage, e) else p)
            rest
          from by simp [hp]]
      show (if s = k then some v else _) = (if s = k then some v else _)
      by_cases hsk : s = k
      · rw [if_pos hsk, if_pos hsk]
      · rw [if_neg hsk, if_neg hsk]
        exact ih

theorem lookupStage_append_single_ne (s stage : String)
    (e : CheckpointEntry) (h : s ≠ stage) :
    ∀ l : List (String × CheckpointEntry),
      lookupStage (l ++ [(stage, e)]) s = lookupStage l s := by
  intro l
  induction l with
  | nil =>
    show (if s = stage then some e else none) = none
    rw [if_neg h]
  | cons p rest ih =>
    obtain ⟨k, v⟩ := p
    show (if s = k then some v else _) = (if s = k then some v else _)
    by_cases hsk : s = k
    · rw [if_pos hsk, if_pos hsk]
    · rw [if_neg hsk, if_neg hsk]
      exact ih

theorem lookupStage_map_updateKey_self (stage : String)
    (e : CheckpointEntry) :
    ∀ l : List (String × CheckpointEntry),
      (lookupStage l stage).isSome = true →
      lookupStage
        (l.map (fun p => if p.1 = stage then (stage, e) else p)) stage =
        some e := by
  intro l
  induction l with
  | nil => intro h; exact absurd h (by simp [lookupStage])
  | cons p rest ih =>
    intro hsome
    obtain ⟨k, v⟩ := p
    by_cases hp : k = stage
    · subst hp
      rw [show (List.map (fun p => if p.1 = k then (k, e) else p)
          ((k, v) :: rest)) =
          (k, e) :: List.map (fun p => if p.1 = k then (k, e) else p) rest
          from by simp]
      show (if k = k then some e else _) = some e
      rw [if_pos rfl]
    · rw [show (List.map (fun p => if p.1 = stage then (stage, e) else p)
          ((k, v) :: rest)) =
          (k, v) :: List.map (fun p => if p.1 = stage then (stage, e) else p)
            rest
          from by simp [hp]]
      have hne : stage ≠ k := fun hh => hp hh.symm
      show (if stage = k then some v else _) = some e
      rw [if_neg hne]
      refine ih ?_
      have hs : lookupStage ((k, v) :: rest) stage = lookupStage rest stage := by
        show (if stage = k then some v else _) = _
        rw [if_neg hne]
      rw [hs] at hsome
      exact hsome

theorem lookupStage_append_single_self (stage : String)
    (e : CheckpointEntry) :
    ∀ l : List (String × CheckpointEntry),
      lookupStage l stage = none →
      lookupStage (l ++ [(stage, e)]) stage = some e := by
  intro l
  induction l with
  | nil =>
    intro _
    show (if stage = stage then some e else none) = some e
    rw [if_pos rfl]
  | cons p rest ih =>
    intro hnone
    obtain ⟨k, v⟩ := p
    by_cases hsk : stage = k
    · exfalso
      have : lookupStage ((k, v) :: rest) stage = some v := by
        show (if stage = k then some v else _) = _
        rw [if_pos hsk]
      rw [this] at hnone
      exact Option.noConfusion hnone
    · have hs : lookupStage ((k, v) :: rest) stage =
          lookupStage rest stage := by
        show (if stage = k then some v else _) = _
        rw [if_neg hsk]
      rw [hs] at hnone
      show (if stage = k then some v else _) = some e
      rw [if_neg hsk]
      exact ih hnone

/-- A world in which every stage succeeds: one Python candidate, a
clean clone, a venv that provisions, an entry point, and a process
that exits 0 within the timeout. -/
def fullWorld : World :=
  ⟨"paper", 0, false, false, none, none, none,
    [⟨"https://github.com/a/x", 5, "Python", "paper_text", false, false⟩],
    none, true,
    ⟨["Python"], [], false, false, [], false, [some "python main.py"],
      false, []⟩,
    true, none, none, none, none,
    ⟨false, .ok, false, false, "", true, true, "", fun _ => false,
      fun _ => .ok, false, .ok, false, true, ""⟩,
    ⟨true, "", true, 0, -9, "ok\n", "", "", ""⟩⟩

/-- A world in which the discovery collaborator finds no
repositories. -/
def noRepoWorld : World :=
  ⟨"paper", 0, false, false, none, none, none, [], none, true,
    ⟨["Python"], [], false, false, [], false, [some "python main.py"],
      false, []⟩,
    true, none, none, none, none,
    ⟨false, .ok, false, false, "", true, true, "", fun _ => false,
      fun _ => .ok, false, .ok, false, true, ""⟩,
    ⟨true, "", true, 0, -9, "ok\n", "", "", ""⟩⟩

end Orch

/-- C5 (amended): a run writes exactly one checkpoint entry — the
`initialized` one, at the start — so the final checkpoint mapping is
`{initialized ↦ (timestamp, data)}` with `lastStage = initialized` on
every path; and `_save_checkpoint` itself is append-only: it preserves
the entry of every other stage, and records the written stage's entry
with `lastStage` naming it. -/
theorem c5_checkpoint_single_stage (w : Orch.World) (interactive : Bool)
    (timeout : Option Nat) :
    ((Orch.reproduce w interactive timeout).checkpoint =
      ⟨[("initialized", ⟨w.now, w.paperMeta⟩)], some "initialized"⟩) ∧
    (∀ (cp : Orch.CheckpointFile) (stage s : String)
        (e : Orch.CheckpointEntry), s ≠ stage →
      Orch.lookupStage (Orch.saveCheckpoint cp stage e).entries s =
        Orch.lookupStage cp.entries s) ∧
    (∀ (cp : Orch.CheckpointFile) (stage : String)
        (e : Orch.CheckpointEntry),
      Orch.lookupStage (Orch.saveCheckpoint cp stage e).entries stage =
          some e ∧
        (Orch.saveCheckpoint cp stage e).lastStage = some stage) := by
  refine ⟨rfl, ?_, ?_⟩
  · intro cp stage s e h
    unfold Orch.saveCheckpoint
    dsimp only
    split
    · exact Orch.lookupStage_map_updateKey stage s e h cp.entries
    · exact Orch.lookupStage_append_single_ne s stage e h cp.entries
  · intro cp stage e
    refine ⟨?_, rfl⟩
    unfold Orch.saveCheckpoint
    dsimp only
    split
    · exact Orch.lookupStage_map_updateKey_self stage e cp.entries
        (by assumption)
    · refine Orch.lookupStage_append_single_self stage e cp.entries ?_
      rename_i hns
      cases hl : Orch.lookupStage cp.entries stage with
      | none => rfl
      | some v =>
        rw [hl] at hns
        exact absurd rfl hns

/-- Witness for C5: the full-success world's run leaves exactly the
`initialized` entry, and writing a `discovered` entry into that file
would preserve the `initialized` one. -/
theorem c5_checkpoint_single_stage_witness :
    (Orch.reproduce Orch.fullWorld false none).checkpoint =
        ⟨[("initialized", ⟨0, "paper"⟩)], some "initialized"⟩ ∧
      Orch.lookupStage
          (Orch.saveCheckpoint
            ⟨[("initialized", ⟨0, "paper"⟩)], some "initialized"⟩
            "discovered" ⟨1, "repos"⟩).entries "initialized" =
        Orch.lookupStage
          (Orch.CheckpointFile.mk [("initialized", ⟨0, "paper"⟩)]
            (some "initialized")).entries "initialized" :=
  ⟨(c5_checkpoint_single_stage Orch.fullWorld false none).1,
    (c5_checkpoint_single_stage Orch.fullWorld false none).2.1
      ⟨[("initialized", ⟨0, "paper"⟩)], some "initialized"⟩
      "discovered" "initialized" ⟨1, "repos"⟩ (by decide)⟩

/-- Counterexample to C5 as stated: in a run that completes every
stage (the terminal summary is printed), the checkpoint mapping has no
entry for the completed `discovered` stage and `lastStage` does not
name it — only the `initialized` entry is ever written. -/
theorem c5_counterexample :
    (Orch.reproduce Orch.fullWorld false none).summaryPrinted = true ∧
      "discovered" ∈ Orch.stageNames ∧
      Orch.lookupStage
          (Orch.reproduce Orch.fullWorld false none).checkpoint.entries
          "discovered" = none ∧
      (Orch.reproduce Orch.fullWorld false none).checkpoint.lastStage ≠
        some "discovered" := by
  exact ⟨rfl, by decide, by decide, by decide⟩

/-- C6 (amended): the report is serialized and persisted exactly once,
and the terminal summary printed, in exactly the runs that reach the
execution stage; every earlier halt (no repositories, no selection,
clone failure, cancellation, environment failure, no entry point)
returns the partial report with `success = false` — without raising —
but persists nothing and prints no summary. -/
theorem c6_report_persistence (w : Orch.World) (interactive : Bool)
    (timeout : Option Nat) :
    Orch.PersistSpec (Orch.reproduceCore w interactive timeout) ∧
      (Orch.reproduce w interactive timeout).savedReportCount =
        (Orch.reproduceCore w interactive timeout).2.1 ∧
      (Orch.reproduce w interactive timeout).summaryPrinted =
        (Orch.reproduceCore w interactive timeout).2.2 ∧
      (Orch.reproduce w interactive timeout).report =
        (Orch.reproduceCore w interactive timeout).1 := by
  refine ⟨?_, rfl, rfl, rfl⟩
  unfold Orch.reproduceCore
  split
  · exact ⟨rfl, rfl, fun _ => rfl⟩
  · split
    · exact ⟨rfl, rfl, fun _ => rfl⟩
    · split
      · exact ⟨rfl, rfl, fun _ => rfl⟩
      · split
        · exact ⟨rfl, rfl, fun _ => rfl⟩
        · split
          · exact ⟨rfl, rfl, fun _ => rfl⟩
          · split
            · exact ⟨rfl, rfl, fun _ => rfl⟩
            · exact ⟨rfl, rfl, fun h => nomatch h⟩

/-- Witness for C6: the full run persists once with the summary
printed; the no-repositories halt persists nothing, prints no summary,
and returns `success = false`. -/
theorem c6_report_persistence_witness :
    (Orch.reproduce Orch.fullWorld false none).savedReportCount =
        (Orch.reproduceCore Orch.fullWorld false none).2.1 ∧
      (Orch.reproduceCore Orch.noRepoWorld false none).1.success = false :=
  ⟨(c6_report_persistence Orch.fullWorld false none).2.1,
    (c6_report_persistence Orch.noRepoWorld false none).1.2.2 (by decide)⟩

/-- Counterexample to C6 as stated: the no-repositories halt returns a
report but persists it zero times (not exactly once) and produces no
terminal summary. -/
theorem c6_counterexample :
    (Orch.reproduce Orch.noRepoWorld false none).savedReportCount = 0 ∧
      (Orch.reproduce Orch.noRepoWorld false none).summaryPrinted =
        false ∧
      (Orch.reproduce Orch.noRepoWorld false none).report.success =
        false :=
  ⟨rfl, rfl, rfl⟩

end Spec2Proof
